import Mathlib

/-!
Shallow embedding of the sentiment-analysis API in `src/prod/app/api.py`.

The request pipeline (`predict_sentiment`), the health endpoint
(`health_check`) and the decision step are translated directly from the
source.  The opaque external collaborators -- the pickled Keras tokenizer,
the `clean_text` normalizer and the loaded model -- are modelled from the
specification and passed in as explicit values, so that the control flow of
the handlers can be verified for every possible behaviour of those
collaborators.

A model score is an `Option ℚ`: `some q` is an ordinary float value and
`none` models a NaN scalar output, for which every comparison is false
(IEEE semantics), `1 - NaN = NaN` and `round(NaN, 4) = NaN`.
-/

/-- A raw model score: `some q` is a numeric value, `none` models NaN. -/
abbrev Score := Option ℚ

/-- `MAX_LEN = 30` at `api.py:9`. -/
def MAX_LEN : Nat := 30

/-- `HTTPException(status_code=..., detail=...)` as raised by the handlers. -/
structure HTTPException where
  status_code : Nat
  detail : String
deriving DecidableEq, Repr

/-- Request body of `POST /predict` (`PredictRequest`, `api.py:64`). -/
structure PredictRequest where
  text : String
deriving DecidableEq, Repr

/-- Response body of `POST /predict` (`PredictResponse`, `api.py:74`). -/
structure PredictResponse where
  text : String
  sentiment : String
  confidence : Score
  score : Score
deriving DecidableEq, Repr

/-- Response body of `GET /health` (`HealthResponse`, `api.py:90`). -/
structure HealthResponse where
  status : String
  model_loaded : Bool
deriving DecidableEq, Repr

/-- Modelled from the spec: the fitted vocabulary/tokenizer artifact is an
opaque mapping from normalized word tokens to integer indices, loaded from
`tokenizer.pickle`; its internals are outside the repository. -/
structure Tokenizer where
  wordIndex : List (String × Nat)

/-- Modelled from the spec: look a token up in the vocabulary artifact;
out-of-vocabulary tokens map to index 0 (the artifact's convention per
spec 4.2). -/
def Tokenizer.indexOf (tk : Tokenizer) (w : String) : Nat :=
  match tk.wordIndex.find? (fun p => p.1 = w) with
  | some p => p.2
  | none => 0

/-- Modelled from the spec (4.2): `" ".join(tokens)` followed by
`tokenizer.texts_to_sequences` maps each normalized token to its
vocabulary index, out-of-vocabulary tokens to 0 (`api.py:145-147`). -/
def textsToSequences (tk : Tokenizer) (tokens : List String) : List Nat :=
  tokens.map tk.indexOf

/-- `pad_sequences(seq, maxlen, padding='post', truncating='post')`
(`api.py:149`): keep the first `maxlen` entries if too long, otherwise
append zeros up to length `maxlen`. -/
def padSequences (maxlen : Nat) (seq : List Nat) : List Nat :=
  if maxlen ≤ seq.length then seq.take maxlen
  else seq ++ List.replicate (maxlen - seq.length) 0

/-- The loaded model: scores one padded sequence; it may raise (mapped to
`Except.error` with the exception text) and may return a NaN scalar. -/
abbrev Model := List Nat → Except String Score

/-- The normalizer `clean_text(text, processing)`: returns the token list
or raises with a message. Opaque external collaborator (`cleaning.py`). -/
abbrev CleanText := String → String → Except String (List String)

/-- The process-wide globals `model` and `tokenizer` (`api.py:34-35`);
`none` before a successful startup load. -/
structure ServiceState where
  model : Option Model
  tokenizer : Option Tokenizer

/-- Python `str.strip()`: remove leading and trailing whitespace. -/
def pyStrip (s : String) : String :=
  ⟨((s.data.dropWhile Char.isWhitespace).reverse.dropWhile Char.isWhitespace).reverse⟩

/-- Python `score >= t` on a possibly-NaN score: false for NaN. -/
def scoreGe (s : Score) (t : ℚ) : Bool :=
  match s with
  | some q => decide (t ≤ q)
  | none => false

/-- Python `1 - score`: NaN propagates. -/
def oneSub (s : Score) : Score :=
  s.map (fun q => 1 - q)

/-- Python `round(x, 4)` on a rational: round `x * 10^4` to an integer and
scale back. `round(NaN, 4)` is NaN. -/
def round4 (s : Score) : Score :=
  s.map (fun q => ((round (q * 10000) : ℤ) : ℚ) / 10000)

/-- The decision step of `predict_sentiment` (`api.py:154-159`): sentiment
and (unrounded) confidence from the raw score. -/
def decisionStep (score : Score) : String × Score :=
  if scoreGe score (1/2) then ("positif", score)
  else ("négatif", oneSub score)

/-- An exception escaping the guarded block: either an `HTTPException`
(re-raised as is at `api.py:168-169`) or any other exception, carrying its
message (`str(e)`). -/
inductive PyExc where
  | http (e : HTTPException)
  | other (msg : String)
deriving DecidableEq, Repr

/-- Body of the `try` block of `predict_sentiment` (`api.py:136-166`):
clean, reject empty token lists, encode, pad, score, decide, shape the
response. -/
def tryBody (cleanText : CleanText) (m : Model) (tk : Tokenizer)
    (req : PredictRequest) : Except PyExc PredictResponse :=
  match cleanText req.text "lemmatizer" with
  | .error msg => .error (PyExc.other msg)
  | .ok tokens =>
    if tokens = [] then
      .error (PyExc.http
        { status_code := 400,
          detail := "Le texte ne contient aucun mot valide après nettoyage" })
    else
      let padded := padSequences MAX_LEN (textsToSequences tk tokens)
      match m padded with
      | .error msg => .error (PyExc.other msg)
      | .ok score =>
        let sc := decisionStep score
        .ok { text := req.text,
              sentiment := sc.1,
              confidence := round4 sc.2,
              score := round4 score }

/-- `predict_sentiment` (`api.py:114-174`): readiness check (503), empty
text check (400), then the guarded pipeline; an `HTTPException` raised
inside the `try` propagates unchanged, any other exception becomes a 500
whose detail carries the exception text. -/
def predictSentiment (cleanText : CleanText) (st : ServiceState)
    (req : PredictRequest) : Except HTTPException PredictResponse :=
  match st.model, st.tokenizer with
  | some m, some tk =>
    if req.text = "" ∨ pyStrip req.text = "" then
      .error { status_code := 400, detail := "Le texte ne peut pas être vide" }
    else
      match tryBody cleanText m tk req with
      | .ok r => .ok r
      | .error (PyExc.http e) => .error e
      | .error (PyExc.other msg) =>
        .error { status_code := 500,
                 detail := "Erreur lors de la prédiction : " ++ msg }
  | _, _ =>
    .error { status_code := 503,
             detail := "Le modèle ou le tokenizer n\x27est pas chargé. Veuillez réessayer plus tard." }

/-- `health_check` (`api.py:106-112`): always returns normally (HTTP 200)
with status "healthy" and `model_loaded = (model is not None and tokenizer
is not None)`. -/
def healthCheck (st : ServiceState) : HealthResponse :=
  { status := "healthy",
    model_loaded := st.model.isSome && st.tokenizer.isSome }

/-- Test fixture: a normalizer that returns a fixed token list. -/
def cleanTo (tokens : List String) : CleanText := fun _ _ => .ok tokens

/-- Test fixture: a normalizer that raises with a fixed message. -/
def cleanRaise (msg : String) : CleanText := fun _ _ => .error msg

/-- Test fixture: a model that returns a fixed score. -/
def modelTo (s : Score) : Model := fun _ => .ok s

/-- Test fixture: a model whose prediction raises with a fixed message. -/
def modelRaise (msg : String) : Model := fun _ => .error msg

/-- Test fixture: a two-word vocabulary. -/
def sampleTokenizer : Tokenizer := ⟨[("good", 1), ("movie", 2)]⟩

example : padSequences MAX_LEN [5, 7] = [5, 7] ++ List.replicate 28 0 := by decide
example : (padSequences MAX_LEN (List.replicate 40 3)).length = 30 := by decide
example : round4 (some (8234567/10000000)) = some (8235/10000) := by
  simp [round4, round_eq]
  norm_num
example : pyStrip "" = "" := by decide
example : pyStrip "   " = "" := by decide
example : pyStrip "great movie" ≠ "" := by decide

lemma padSequences_length (n : Nat) (seq : List Nat) :
    (padSequences n seq).length = n := by
  unfold padSequences
  split <;> simp <;> omega

/-- C1: for every raw score in `[0,1]`, the decision step yields sentiment
"positif" iff the score is at least `1/2` (the boundary `1/2` is positive);
the confidence is the score when positive and `1 - score` otherwise, and
in either case the confidence lies in `[1/2, 1]`. -/
lemma scoreGe_some (q t : ℚ) : scoreGe (some q) t = decide (t ≤ q) := rfl

lemma decisionStep_of_ge (q : ℚ) (h : 1/2 ≤ q) :
    decisionStep (some q) = ("positif", some q) := by
  have hs : scoreGe (some q) (1/2) = true := by
    rw [scoreGe_some, decide_eq_true_eq]
    exact h
  unfold decisionStep
  rw [hs]
  rfl

lemma decisionStep_of_lt (q : ℚ) (h : q < 1/2) :
    decisionStep (some q) = ("négatif", some (1 - q)) := by
  have hs : scoreGe (some q) (1/2) = false := by
    rw [scoreGe_some, decide_eq_false_iff_not]
    exact not_le.mpr h
  unfold decisionStep
  rw [hs]
  rfl

theorem C1_decision_step (q : ℚ) (h0 : 0 ≤ q) (h1 : q ≤ 1) :
    ((decisionStep (some q)).1 = "positif" ↔ 1/2 ≤ q) ∧
    (decisionStep (some q)).2 = some (if 1/2 ≤ q then q else 1 - q) ∧
    ∃ c, (decisionStep (some q)).2 = some c ∧ 1/2 ≤ c ∧ c ≤ 1 := by
  by_cases h : (1/2 : ℚ) ≤ q
  · rw [decisionStep_of_ge q h, if_pos h]
    exact ⟨iff_of_true rfl h, rfl, q, rfl, h, h1⟩
  · rw [decisionStep_of_lt q (not_le.mp h), if_neg h]
    exact ⟨iff_of_false (by simp) h, rfl, 1 - q, rfl,
      by linarith [not_le.mp h], by linarith⟩

/-- Witness for C1 at the boundary score `1/2` (confidence `1/2`,
sentiment positive). -/
theorem C1_witness :
    ((decisionStep (some (1/2))).1 = "positif" ↔ (1:ℚ)/2 ≤ 1/2) ∧
    (decisionStep (some (1/2))).2 = some (if (1:ℚ)/2 ≤ 1/2 then 1/2 else 1 - 1/2) ∧
    ∃ c, (decisionStep (some (1/2))).2 = some c ∧ 1/2 ≤ c ∧ c ≤ 1 :=
  C1_decision_step (1/2) (by norm_num) (by norm_num)

/-- C4: for every tokenizer and every token sequence (empty ones and ones
far longer than `MAX_LEN` included), the padded encoded sequence handed to
the model has length exactly `MAX_LEN = 30`. -/
theorem C4_encoded_length (tk : Tokenizer) (tokens : List String) :
    (padSequences MAX_LEN (textsToSequences tk tokens)).length = MAX_LEN :=
  padSequences_length MAX_LEN (textsToSequences tk tokens)

/-- C8: `GET /health` always returns normally (hence HTTP 200) with status
field always "healthy" whatever the load state, and `model_loaded` is true
exactly when both the model and the tokenizer are non-null: false on the
initial state, true after a successful load of both artifacts. -/
theorem C8_health (st : ServiceState) (m : Model) (tk : Tokenizer) :
    (healthCheck st).status = "healthy" ∧
    ((healthCheck st).model_loaded = true ↔ st.model ≠ none ∧ st.tokenizer ≠ none) ∧
    (healthCheck { model := none, tokenizer := none }).model_loaded = false ∧
    (healthCheck { model := some m, tokenizer := some tk }).model_loaded = true := by
  refine ⟨rfl, ?_, rfl, rfl⟩
  simp [healthCheck, Option.isSome_iff_ne_none]

lemma predict_not_ready (ct : CleanText) (st : ServiceState) (req : PredictRequest)
    (h : st.model = none ∨ st.tokenizer = none) :
    predictSentiment ct st req =
      .error { status_code := 503,
               detail := "Le modèle ou le tokenizer n\x27est pas chargé. Veuillez réessayer plus tard." } := by
  obtain ⟨om, ot⟩ := st
  rcases h with h | h
  · rw [show om = none from h]
    cases ot <;> rfl
  · rw [show ot = none from h]
    cases om <;> rfl

lemma not_blank_of_strip (req : PredictRequest) (h : pyStrip req.text ≠ "") :
    ¬(req.text = "" ∨ pyStrip req.text = "") := by
  rintro (he | hc)
  · exact h (by rw [he]; rfl)
  · exact h hc

lemma predict_ready_blank (ct : CleanText) (m : Model) (tk : Tokenizer)
    (req : PredictRequest) (h : req.text = "" ∨ pyStrip req.text = "") :
    predictSentiment ct ⟨some m, some tk⟩ req =
      .error { status_code := 400, detail := "Le texte ne peut pas être vide" } := by
  simp only [predictSentiment]
  rw [if_pos h]

lemma predict_ready_not_blank (ct : CleanText) (m : Model) (tk : Tokenizer)
    (req : PredictRequest) (h : ¬(req.text = "" ∨ pyStrip req.text = "")) :
    predictSentiment ct ⟨some m, some tk⟩ req =
      match tryBody ct m tk req with
      | .ok r => .ok r
      | .error (PyExc.http e) => .error e
      | .error (PyExc.other msg) =>
        .error { status_code := 500,
                 detail := "Erreur lors de la prédiction : " ++ msg } := by
  simp only [predictSentiment]
  rw [if_neg h]

lemma tryBody_clean_error (ct : CleanText) (m : Model) (tk : Tokenizer)
    (req : PredictRequest) (msg : String)
    (h : ct req.text "lemmatizer" = .error msg) :
    tryBody ct m tk req = .error (PyExc.other msg) := by
  simp only [tryBody, h]

lemma tryBody_no_tokens (ct : CleanText) (m : Model) (tk : Tokenizer)
    (req : PredictRequest) (h : ct req.text "lemmatizer" = .ok []) :
    tryBody ct m tk req =
      .error (PyExc.http
        { status_code := 400,
          detail := "Le texte ne contient aucun mot valide après nettoyage" }) := by
  simp only [tryBody, h]
  rfl

lemma tryBody_model_error (ct : CleanText) (m : Model) (tk : Tokenizer)
    (req : PredictRequest) (tokens : List String) (msg : String)
    (h : ct req.text "lemmatizer" = .ok tokens) (hne : tokens ≠ [])
    (hm : m (padSequences MAX_LEN (textsToSequences tk tokens)) = .error msg) :
    tryBody ct m tk req = .error (PyExc.other msg) := by
  simp only [tryBody, h]
  rw [if_neg hne]
  simp only [hm]

lemma tryBody_ok (ct : CleanText) (m : Model) (tk : Tokenizer)
    (req : PredictRequest) (tokens : List String) (s : Score)
    (h : ct req.text "lemmatizer" = .ok tokens) (hne : tokens ≠ [])
    (hm : m (padSequences MAX_LEN (textsToSequences tk tokens)) = .ok s) :
    tryBody ct m tk req =
      .ok { text := req.text,
            sentiment := (decisionStep s).1,
            confidence := round4 (decisionStep s).2,
            score := round4 s } := by
  simp only [tryBody, h]
  rw [if_neg hne]
  simp only [hm]

/-- C2: the validation of `predict_sentiment` is fail-fast in a fixed
order: an unready service (model or tokenizer missing) yields 503 before
any other check and for any text; only with a ready service is
empty/whitespace-only text rejected with 400; only past that is the
normalizer run and an empty token list rejected with 400. -/
theorem C2_validation_order (ct : CleanText) (st : ServiceState)
    (m : Model) (tk : Tokenizer) (req : PredictRequest) :
    (st.model = none ∨ st.tokenizer = none →
      predictSentiment ct st req =
        .error { status_code := 503,
                 detail := "Le modèle ou le tokenizer n\x27est pas chargé. Veuillez réessayer plus tard." }) ∧
    (pyStrip req.text = "" →
      predictSentiment ct ⟨some m, some tk⟩ req =
        .error { status_code := 400, detail := "Le texte ne peut pas être vide" }) ∧
    (pyStrip req.text ≠ "" → ct req.text "lemmatizer" = .ok [] →
      predictSentiment ct ⟨some m, some tk⟩ req =
        .error { status_code := 400,
                 detail := "Le texte ne contient aucun mot valide après nettoyage" }) := by
  refine ⟨predict_not_ready ct st req, ?_, ?_⟩
  · intro h
    exact predict_ready_blank ct m tk req (Or.inr h)
  · intro h hclean
    rw [predict_ready_not_blank ct m tk req (not_blank_of_strip req h),
      tryBody_no_tokens ct m tk req hclean]

/-- Witness for C2: a not-ready service gives 503 on a sound text, a ready
service gives 400 on whitespace-only text, and a ready service whose
normalizer strips every word gives the no-valid-tokens 400. -/
theorem C2_witness :
    predictSentiment (cleanTo []) ⟨none, none⟩ ⟨"hello"⟩ =
      .error { status_code := 503,
               detail := "Le modèle ou le tokenizer n\x27est pas chargé. Veuillez réessayer plus tard." } ∧
    predictSentiment (cleanTo []) ⟨some (modelTo (some (1/2))), some sampleTokenizer⟩ ⟨"   "⟩ =
      .error { status_code := 400, detail := "Le texte ne peut pas être vide" } ∧
    predictSentiment (cleanTo []) ⟨some (modelTo (some (1/2))), some sampleTokenizer⟩ ⟨"hello"⟩ =
      .error { status_code := 400,
               detail := "Le texte ne contient aucun mot valide après nettoyage" } :=
  ⟨(C2_validation_order (cleanTo []) ⟨none, none⟩ (modelTo (some (1/2)))
      sampleTokenizer ⟨"hello"⟩).1 (Or.inl rfl),
   (C2_validation_order (cleanTo []) ⟨none, none⟩ (modelTo (some (1/2)))
      sampleTokenizer ⟨"   "⟩).2.1 (by decide),
   (C2_validation_order (cleanTo []) ⟨none, none⟩ (modelTo (some (1/2)))
      sampleTokenizer ⟨"hello"⟩).2.2 (by decide) rfl⟩

/-- C3, counterexample: the empty-text 400 rejection does depend on the
service being ready. With the service not ready, `predict({text: ""})`
returns the 503 service-unavailable error, not 400. -/
theorem C3_counterexample :
    predictSentiment (cleanTo []) ⟨none, none⟩ ⟨""⟩ =
      .error { status_code := 503,
               detail := "Le modèle ou le tokenizer n\x27est pas chargé. Veuillez réessayer plus tard." } ∧
    (503 : Nat) ≠ 400 :=
  ⟨predict_not_ready (cleanTo []) ⟨none, none⟩ ⟨""⟩ (Or.inl rfl), by decide⟩

/-- C3 amended: when the service is ready (model and tokenizer loaded),
`predict` with empty text and with whitespace-only text returns 400; when
the service is not ready, the 503 readiness failure takes precedence over
the empty-text check for every text. -/
theorem C3_empty_text (ct : CleanText) (st : ServiceState)
    (m : Model) (tk : Tokenizer) (req : PredictRequest) :
    (pyStrip req.text = "" →
      predictSentiment ct ⟨some m, some tk⟩ req =
        .error { status_code := 400, detail := "Le texte ne peut pas être vide" }) ∧
    (st.model = none ∨ st.tokenizer = none →
      predictSentiment ct st req =
        .error { status_code := 503,
                 detail := "Le modèle ou le tokenizer n\x27est pas chargé. Veuillez réessayer plus tard." }) :=
  ⟨fun h => predict_ready_blank ct m tk req (Or.inr h),
   predict_not_ready ct st req⟩

/-- Witness for the amended C3 at text `""` and at text `"   "` with a
ready service. -/
theorem C3_witness :
    predictSentiment (cleanTo ["good"]) ⟨some (modelTo (some (1/2))), some sampleTokenizer⟩ ⟨""⟩ =
      .error { status_code := 400, detail := "Le texte ne peut pas être vide" } ∧
    predictSentiment (cleanTo ["good"]) ⟨some (modelTo (some (1/2))), some sampleTokenizer⟩ ⟨"   "⟩ =
      .error { status_code := 400, detail := "Le texte ne peut pas être vide" } :=
  ⟨(C3_empty_text (cleanTo ["good"]) ⟨none, none⟩ (modelTo (some (1/2)))
      sampleTokenizer ⟨""⟩).1 (by decide),
   (C3_empty_text (cleanTo ["good"]) ⟨none, none⟩ (modelTo (some (1/2)))
      sampleTokenizer ⟨"   "⟩).1 (by decide)⟩

/-- C5: a token sequence longer than `MAX_LEN` encodes exactly like its
first `MAX_LEN` tokens (the tail is ignored); a shorter one encodes as the
tokens' vocabulary indices followed by trailing zeros filling the
remainder; an out-of-vocabulary token maps to index 0. -/
theorem C5_truncation_padding (tk : Tokenizer) (tokens : List String) (w : String) :
    (MAX_LEN < tokens.length →
      padSequences MAX_LEN (textsToSequences tk tokens) =
        padSequences MAX_LEN (textsToSequences tk (tokens.take MAX_LEN))) ∧
    (tokens.length < MAX_LEN →
      padSequences MAX_LEN (textsToSequences tk tokens) =
        textsToSequences tk tokens ++ List.replicate (MAX_LEN - tokens.length) 0) ∧
    ((∀ p ∈ tk.wordIndex, p.1 ≠ w) → tk.indexOf w = 0) := by
  refine ⟨?_, ?_, ?_⟩
  · intro h
    have h1 : MAX_LEN ≤ (textsToSequences tk tokens).length := by
      simp only [textsToSequences, List.length_map]
      omega
    have h2 : MAX_LEN ≤ (textsToSequences tk (tokens.take MAX_LEN)).length := by
      simp only [textsToSequences, List.length_map, List.length_take]
      omega
    unfold padSequences
    rw [if_pos h1, if_pos h2]
    simp only [textsToSequences, ← List.map_take, List.take_take, Nat.min_self]
  · intro h
    have h1 : (textsToSequences tk tokens).length = tokens.length := by
      simp [textsToSequences]
    unfold padSequences
    rw [if_neg (by omega), h1]
  · intro hw
    unfold Tokenizer.indexOf
    have hfind : tk.wordIndex.find? (fun p => p.1 = w) = none := by
      rw [List.find?_eq_none]
      intro p hp
      simpa using hw p hp
    rw [hfind]

/-- Witness for C5: a 31-token sequence encodes like its first 30 tokens,
a 2-token sequence encodes as its two indices plus 28 trailing zeros, and
the out-of-vocabulary token "zzz" maps to index 0. -/
theorem C5_witness :
    padSequences MAX_LEN (textsToSequences sampleTokenizer (List.replicate 31 "good")) =
      padSequences MAX_LEN (textsToSequences sampleTokenizer ((List.replicate 31 "good").take MAX_LEN)) ∧
    padSequences MAX_LEN (textsToSequences sampleTokenizer ["good", "zzz"]) =
      textsToSequences sampleTokenizer ["good", "zzz"] ++
        List.replicate (MAX_LEN - (["good", "zzz"] : List String).length) 0 ∧
    sampleTokenizer.indexOf "zzz" = 0 :=
  ⟨(C5_truncation_padding sampleTokenizer (List.replicate 31 "good") "zzz").1 (by decide),
   (C5_truncation_padding sampleTokenizer ["good", "zzz"] "zzz").2.1 (by decide),
   (C5_truncation_padding sampleTokenizer ["good", "zzz"] "zzz").2.2 (by decide)⟩

/-- C6: score and confidence are rounded to 4 decimal places only in the
response, while the unrounded score decides the sentiment via the `>= 0.5`
comparison, and the returned text is the original input, not the cleaned
version. -/
theorem C6_rounding (ct : CleanText) (m : Model) (tk : Tokenizer)
    (req : PredictRequest) (tokens : List String) (q : ℚ)
    (hb : pyStrip req.text ≠ "")
    (hc : ct req.text "lemmatizer" = .ok tokens)
    (hne : tokens ≠ [])
    (hm : m (padSequences MAX_LEN (textsToSequences tk tokens)) = .ok (some q)) :
    predictSentiment ct ⟨some m, some tk⟩ req =
      .ok { text := req.text,
            sentiment := if 1/2 ≤ q then "positif" else "négatif",
            confidence := round4 (some (if 1/2 ≤ q then q else 1 - q)),
            score := round4 (some q) } := by
  rw [predict_ready_not_blank ct m tk req (not_blank_of_strip req hb),
    tryBody_ok ct m tk req tokens (some q) hc hne hm]
  by_cases h : (1/2 : ℚ) ≤ q
  · rw [decisionStep_of_ge q h, if_pos h, if_pos h]
  · rw [decisionStep_of_lt q (not_le.mp h), if_neg h, if_neg h]

/-- Witness for C6 at `rawScore = 0.8234567`: the response carries score
and confidence `0.8235`, sentiment positive, and the original text. -/
theorem C6_witness :
    predictSentiment (cleanTo ["good", "movie"])
        ⟨some (modelTo (some (8234567/10000000))), some sampleTokenizer⟩
        ⟨"great movie"⟩ =
      .ok { text := "great movie", sentiment := "positif",
            confidence := some (8235/10000), score := some (8235/10000) } := by
  rw [C6_rounding (cleanTo ["good", "movie"]) (modelTo (some (8234567/10000000)))
    sampleTokenizer ⟨"great movie"⟩ ["good", "movie"] (8234567/10000000)
    (by decide) rfl (by decide) rfl]
  norm_num [round4, round_eq]

/-- C7: inside the guarded block of `predict_sentiment`, an exception
raised by cleaning or by inference that is not an already-classified
failure becomes a 500 whose detail carries the underlying message, while
the 400 no-valid-tokens `HTTPException` raised inside the block propagates
unchanged; no failure is swallowed. -/
theorem C7_exception_handling (ct : CleanText) (m : Model) (tk : Tokenizer)
    (req : PredictRequest) (tokens : List String) (msg msg2 : String)
    (hb : pyStrip req.text ≠ "") :
    (ct req.text "lemmatizer" = .error msg →
      predictSentiment ct ⟨some m, some tk⟩ req =
        .error { status_code := 500,
                 detail := "Erreur lors de la prédiction : " ++ msg }) ∧
    (ct req.text "lemmatizer" = .ok tokens → tokens ≠ [] →
      m (padSequences MAX_LEN (textsToSequences tk tokens)) = .error msg2 →
      predictSentiment ct ⟨some m, some tk⟩ req =
        .error { status_code := 500,
                 detail := "Erreur lors de la prédiction : " ++ msg2 }) ∧
    (ct req.text "lemmatizer" = .ok [] →
      predictSentiment ct ⟨some m, some tk⟩ req =
        .error { status_code := 400,
                 detail := "Le texte ne contient aucun mot valide après nettoyage" }) := by
  have hnb := not_blank_of_strip req hb
  refine ⟨?_, ?_, ?_⟩
  · intro h
    rw [predict_ready_not_blank ct m tk req hnb, tryBody_clean_error ct m tk req msg h]
  · intro h hne hm
    rw [predict_ready_not_blank ct m tk req hnb,
      tryBody_model_error ct m tk req tokens msg2 h hne hm]
  · intro h
    rw [predict_ready_not_blank ct m tk req hnb, tryBody_no_tokens ct m tk req h]

/-- Witness for C7: a raising normalizer gives a 500 carrying "boom", a
raising model gives a 500 carrying "shape mismatch", and an empty cleaned
token list gives the unchanged 400. -/
theorem C7_witness :
    predictSentiment (cleanRaise "boom")
        ⟨some (modelTo (some (1/2))), some sampleTokenizer⟩ ⟨"hello"⟩ =
      .error { status_code := 500,
               detail := "Erreur lors de la prédiction : " ++ "boom" } ∧
    predictSentiment (cleanTo ["good"])
        ⟨some (modelRaise "shape mismatch"), some sampleTokenizer⟩ ⟨"hello"⟩ =
      .error { status_code := 500,
               detail := "Erreur lors de la prédiction : " ++ "shape mismatch" } ∧
    predictSentiment (cleanTo [])
        ⟨some (modelTo (some (1/2))), some sampleTokenizer⟩ ⟨"hello"⟩ =
      .error { status_code := 400,
               detail := "Le texte ne contient aucun mot valide après nettoyage" } :=
  ⟨(C7_exception_handling (cleanRaise "boom") (modelTo (some (1/2)))
      sampleTokenizer ⟨"hello"⟩ ["good"] "boom" "x" (by decide)).1 rfl,
   (C7_exception_handling (cleanTo ["good"]) (modelRaise "shape mismatch")
      sampleTokenizer ⟨"hello"⟩ ["good"] "x" "shape mismatch" (by decide)).2.1
      rfl (by decide) rfl,
   (C7_exception_handling (cleanTo []) (modelTo (some (1/2)))
      sampleTokenizer ⟨"hello"⟩ ["good"] "x" "x" (by decide)).2.2 rfl⟩

/-- C9: the decision step is total over every possible scalar output: no
range or NaN validation is performed, so whenever the raw comparison
`score >= 0.5` is false (NaN included) the request succeeds with sentiment
"négatif" and confidence `1 - score`, and whenever it is true (values
above 1 included) it succeeds with sentiment "positif"; out-of-range
scores are never turned into an error response. -/
theorem C9_total_over_scores (ct : CleanText) (m : Model) (tk : Tokenizer)
    (req : PredictRequest) (tokens : List String) (s : Score)
    (hb : pyStrip req.text ≠ "")
    (hc : ct req.text "lemmatizer" = .ok tokens)
    (hne : tokens ≠ [])
    (hm : m (padSequences MAX_LEN (textsToSequences tk tokens)) = .ok s) :
    predictSentiment ct ⟨some m, some tk⟩ req =
      .ok { text := req.text,
            sentiment := (decisionStep s).1,
            confidence := round4 (decisionStep s).2,
            score := round4 s } ∧
    decisionStep none = ("négatif", none) ∧
    (∀ q : ℚ, q < 1/2 → decisionStep (some q) = ("négatif", some (1 - q))) ∧
    (∀ q : ℚ, 1/2 ≤ q → decisionStep (some q) = ("positif", some q)) := by
  refine ⟨?_, rfl, fun q hq => decisionStep_of_lt q hq, fun q hq => decisionStep_of_ge q hq⟩
  rw [predict_ready_not_blank ct m tk req (not_blank_of_strip req hb),
    tryBody_ok ct m tk req tokens s hc hne hm]

/-- Witness for C9: a NaN score yields a 200 response with sentiment
"négatif" and NaN confidence, and the out-of-range score `-1/4` yields a
200 response with confidence `5/4`, itself outside `[1/2, 1]`. -/
theorem C9_witness :
    predictSentiment (cleanTo ["bad"])
        ⟨some (modelTo none), some sampleTokenizer⟩ ⟨"awful"⟩ =
      .ok { text := "awful", sentiment := "négatif",
            confidence := none, score := none } ∧
    predictSentiment (cleanTo ["bad"])
        ⟨some (modelTo (some (-(1/4)))), some sampleTokenizer⟩ ⟨"awful"⟩ =
      .ok { text := "awful", sentiment := "négatif",
            confidence := some (5/4), score := some (-(1/4)) } := by
  constructor
  · rw [(C9_total_over_scores (cleanTo ["bad"]) (modelTo none) sampleTokenizer
      ⟨"awful"⟩ ["bad"] none (by decide) rfl (by decide) rfl).1]
    rfl
  · rw [(C9_total_over_scores (cleanTo ["bad"]) (modelTo (some (-(1/4))))
      sampleTokenizer ⟨"awful"⟩ ["bad"] (some (-(1/4)))
      (by decide) rfl (by decide) rfl).1,
      decisionStep_of_lt (-(1/4)) (by norm_num)]
    norm_num [round4, round_eq]

/-- C10: the no-valid-tokens 400 is decided solely on the normalizer's
output: a non-empty token sequence whose every token is out of vocabulary
encodes to the all-zero sequence, and `predict` does not reject it but
runs inference on that all-zero sequence and returns a 200 response. -/
theorem C10_oov_still_scored (ct : CleanText) (m : Model) (tk : Tokenizer)
    (req : PredictRequest) (tokens : List String) (s : Score)
    (hb : pyStrip req.text ≠ "")
    (hc : ct req.text "lemmatizer" = .ok tokens)
    (hne : tokens ≠ [])
    (hoov : ∀ w ∈ tokens, tk.indexOf w = 0)
    (hm : m (List.replicate MAX_LEN 0) = .ok s) :
    padSequences MAX_LEN (textsToSequences tk tokens) = List.replicate MAX_LEN 0 ∧
    predictSentiment ct ⟨some m, some tk⟩ req =
      .ok { text := req.text,
            sentiment := (decisionStep s).1,
            confidence := round4 (decisionStep s).2,
            score := round4 s } := by
  have hz : textsToSequences tk tokens = List.replicate tokens.length 0 := by
    rw [List.eq_replicate_iff]
    refine ⟨List.length_map tokens _, ?_⟩
    intro b hbz
    obtain ⟨w, hw, rfl⟩ := List.mem_map.mp hbz
    exact hoov w hw
  have hpad : padSequences MAX_LEN (textsToSequences tk tokens) =
      List.replicate MAX_LEN 0 := by
    rw [hz]
    unfold padSequences
    split
    · rw [List.take_replicate]
      congr 1
      simp only [List.length_replicate] at *
      omega
    · rw [List.length_replicate, ← List.replicate_add]
      congr 1
      rename_i hlt
      rw [List.length_replicate] at hlt
      omega
  refine ⟨hpad, ?_⟩
  rw [predict_ready_not_blank ct m tk req (not_blank_of_strip req hb),
    tryBody_ok ct m tk req tokens s hc hne (by rw [hpad]; exact hm)]

/-- Witness for C10: two tokens outside the vocabulary encode to thirty
zeros and still produce a 200 response with the model's score. -/
theorem C10_witness :
    padSequences MAX_LEN (textsToSequences sampleTokenizer ["xyz", "qqq"]) =
      List.replicate MAX_LEN 0 ∧
    predictSentiment (cleanTo ["xyz", "qqq"])
        ⟨some (modelTo (some (1/4))), some sampleTokenizer⟩ ⟨"xyz qqq"⟩ =
      .ok { text := "xyz qqq", sentiment := "négatif",
            confidence := some (3/4), score := some (1/4) } := by
  have h := C10_oov_still_scored (cleanTo ["xyz", "qqq"]) (modelTo (some (1/4)))
    sampleTokenizer ⟨"xyz qqq"⟩ ["xyz", "qqq"] (some (1/4))
    (by decide) rfl (by decide) (by decide) rfl
  refine ⟨h.1, ?_⟩
  rw [h.2, decisionStep_of_lt (1/4) (by norm_num)]
  norm_num [round4, round_eq]
